import Mathlib

/-!
Verification development for the LIBRE-IA benchmarking core:
`scripts/sandbox_runner.py`, `scripts/gpu_monitor.py` and
`scripts/ci_benchmark_http.py`, shallowly embedded in Lean.

External effects (the docker CLI, `subprocess`, HTTP generation calls,
`json.loads`, the wall clock) are modelled as explicit environment
parameters; the pure control flow and data construction of the Python
functions are translated directly.
-/

namespace LibreIA

/-- A model of Python/JSON values as produced by `json.loads` and consumed
by `json.dumps`: null, booleans, numbers (as rationals), strings, arrays
and objects (ordered key/value lists, as built by the source's dict
literals). -/
inductive Json where
  | null : Json
  | bool (b : Bool) : Json
  | num (q : ℚ) : Json
  | str (s : String) : Json
  | arr (xs : List Json) : Json
  | obj (kvs : List (String × Json)) : Json

/-- Python `dict.get k` on an object's key/value list: the value at the first
occurrence of key `k`, if any. -/
def getKey (kvs : List (String × Json)) (k : String) : Option Json :=
  match kvs with
  | [] => none
  | (k', v) :: rest => if k' = k then some v else getKey rest k

/-- The top-level keys of a JSON object (empty for non-objects). -/
def Json.keys : Json → List String
  | .obj kvs => kvs.map (fun kv => kv.1)
  | _ => []

/-- Python truthiness (`bool(x)`) of a JSON value: `None`, `False`, `0`,
`""`, `[]` and `\x7b\x7d` are falsy, everything else truthy. Used for
`bool(parsed.get("passed", False))` in `run_code_in_sandbox`. -/
def jsonTruthy : Json → Bool
  | .null => false
  | .bool b => b
  | .num q => decide (q ≠ 0)
  | .str s => decide (s ≠ "")
  | .arr xs => !xs.isEmpty
  | .obj kvs => !kvs.isEmpty

/-! ## sandbox_runner.py -/

/-- The tuple returned by `run_code_in_sandbox`
(`passed, stdout, stderr, meta`); `meta` is a Python value
(`Json.null` models Python `None`). -/
structure SandboxResult where
  passed : Bool
  stdout : String
  stderr : String
  meta : Json

/-- Model of `str.splitlines`: splitting the character list on the
newline character. -/
def splitLinesAux : List Char → List Char → List (List Char)
  | [], acc => [acc.reverse]
  | c :: rest, acc =>
      if c = '\n' then acc.reverse :: splitLinesAux rest []
      else splitLinesAux rest (c :: acc)

/-- Python truthiness of `ln.strip()`: `true` iff the line has a
non-whitespace character. -/
def lineNonblank (l : List Char) : Bool :=
  l.any (fun c => !c.isWhitespace)

/-- Model of `lines = [ln for ln in out_str.splitlines() if ln.strip()]`;
`last = lines[-1] if lines else ""` (sandbox_runner.py lines 148-149). -/
def lastNonemptyLine (s : String) : String :=
  let lines := (splitLinesAux s.data []).filter lineNonblank
  match lines.getLast? with
  | some l => String.mk l
  | none => ""

/-- The tail of `run_code_in_sandbox` (lines 142-156): parse the last
non-empty stdout line with `json.loads` (modelled by the environment's
`jloads`; `none` models a raised exception). On a parsed dict, read
`passed` (default `False`, coerced with `bool(...)`) and `detail`
(default `None`). A non-dict parse makes `parsed.get` raise
`AttributeError`, caught by the same `except` as a parse failure:
both return `(False, out_str, err_str, "invalid_output")`. -/
def parseSandboxOutput (jloads : String → Option Json) (out_str err_str : String) :
    SandboxResult :=
  match jloads (lastNonemptyLine out_str) with
  | some (Json.obj kvs) =>
      { passed := jsonTruthy ((getKey kvs "passed").getD (Json.bool false))
        stdout := out_str
        stderr := err_str
        meta := (getKey kvs "detail").getD Json.null }
  | some _ =>
      { passed := false, stdout := out_str, stderr := err_str
        meta := Json.str "invalid_output" }
  | none =>
      { passed := false, stdout := out_str, stderr := err_str
        meta := Json.str "invalid_output" }

/-- Environment of one `run_code_in_sandbox` call: the outcomes of its
external effects, in the order the source consults them. -/
structure SandboxEnv where
  /-- Result of `docker_available()`: `shutil.which("docker") is not None`. -/
  dockerAvailable : Bool
  /-- Outcome of `ensure_sandbox_image_built(build_if_missing=True)`
  (line 75); `.error e` models a raised exception with message `e`. -/
  imageBuild : Except String Unit
  /-- Outcome of `subprocess.Popen(docker_cmd, ...)` (line 133). -/
  popen : Except String Unit
  /-- Outcome of `proc.communicate(timeout=timeout + 2)` (line 138):
  `none` models `subprocess.TimeoutExpired`, `some (out, err)` the decoded
  stdout/stderr (already `or ""`-defaulted). -/
  communicate : Option (String × String)
  /-- Model of `json.loads` on a single line; `none` models a raised exception. -/
  jloads : String → Option Json

/-- Embedding of `run_code_in_sandbox` (sandbox_runner.py lines 62-156), with its
external effects read from `env`. -/
def run_code_in_sandbox (env : SandboxEnv) : SandboxResult :=
  if env.dockerAvailable = false then
    { passed := false, stdout := "", stderr := ""
      meta := Json.str "docker_not_available" }
  else
    match env.imageBuild with
    | .error e =>
        { passed := false, stdout := "", stderr := ""
          meta := Json.str ("image_build_failed:" ++ e) }
    | .ok _ =>
        match env.popen with
        | .error e =>
            { passed := false, stdout := "", stderr := ""
              meta := Json.str ("docker_run_failed:" ++ e) }
        | .ok _ =>
            match env.communicate with
            | none =>
                -- `except subprocess.TimeoutExpired: proc.kill(); return ...`
                { passed := false, stdout := "", stderr := ""
                  meta := Json.str "timeout" }
            | some oe => parseSandboxOutput env.jloads oe.1 oe.2

/-- The wall-clock deadline handed to `proc.communicate`
(line 138): `timeout + 2`. -/
def communicateDeadline (timeout : ℚ) : ℚ := timeout + 2

/-- Control-flow shadow of `run_code_in_sandbox`: `true` exactly on the
branch that executes `proc.kill()` (line 140), i.e. when the docker CLI
is present, the image step and `Popen` succeed, and `communicate` raises
`TimeoutExpired`. Note what that branch signals: `proc.kill()` SIGKILLs
the `Popen` child, which is the local docker CLI client process — not
the workload inside the container. -/
def killsDockerClient (env : SandboxEnv) : Bool :=
  env.dockerAvailable
    && (match env.imageBuild with | .ok _ => true | .error _ => false)
    && (match env.popen with | .ok _ => true | .error _ => false)
    && env.communicate.isNone

/-- The two process groups involved in a `docker run` started via
`subprocess.Popen` (line 133): the docker CLI client (the `Popen`
child), and the workload's process tree inside the container, which is
parented by the docker daemon, not by the client. -/
inductive SandboxProc where
  | dockerClient : SandboxProc
  | containerWorkload : SandboxProc

/-- Which processes the `TimeoutExpired` branch (lines 139-141)
terminates. Modelled from the Python standard library and docker
architecture: `proc.kill()` sends SIGKILL to the `Popen` child alone
(the docker CLI client); the container's process tree is parented by
the docker daemon, and the source issues no `docker kill` or
`docker stop`, so nothing terminates the workload. -/
def timeoutTerminates : SandboxProc → Bool
  | .dockerClient => true
  | .containerWorkload => false

/-! ### The generated harness script (sandbox_runner.py lines 83-104)

The script runs the candidate code at top level, then executes the test
assertions inside one `try`, and finally prints
`json.dumps({'passed': ..., 'detail': ...})` as its last stdout line. -/

/-- Rendering by `json.dumps` of the harness result detail, `None` or a string (string
escaping is not modelled; the messages considered here contain no
characters that `json.dumps` would escape). -/
def pyJsonOfDetail : Option String → String
  | none => "null"
  | some s => "\"" ++ s ++ "\""

/-- The line `json.dumps({'passed': p, 'detail': d})` printed by the harness
script's final line (line 103). -/
def dumpsResult (passed : Bool) (detail : Option String) : String :=
  "\x7b\"passed\": " ++ (if passed then "true" else "false")
    ++ ", \"detail\": " ++ pyJsonOfDetail detail ++ "\x7d"

/-- How one harness-script execution ends. -/
inductive ExecOutcome where
  /-- Code ran, every assertion held: prints `passed=True, detail=None`. -/
  | allPass : ExecOutcome
  /-- An assertion raised `AssertionError e`: `detail = str(e)`
  (line 99) — possibly the empty string. -/
  | assertFail (msg : String) : ExecOutcome
  /-- Another exception was raised inside the `try`:
  `detail = 'EXCEPTION: ' + str(e)` (line 102). -/
  | raisedExc (msg : String) : ExecOutcome
  /-- The candidate code raised at top level, before the `try`: the JSON
  result line is never printed; stdout is whatever the code produced. -/
  | topLevelCrash (out : String) : ExecOutcome

/-- The stdout of the harness script for each outcome. -/
def scriptStdout : ExecOutcome → String
  | .allPass => dumpsResult true none
  | .assertFail m => dumpsResult false (some m)
  | .raisedExc m => dumpsResult false (some ("EXCEPTION: " ++ m))
  | .topLevelCrash o => o

/-- The fact that `json.loads` inverts `json.dumps` on the harness's
result line (and, for a top-level crash, that the candidate's own partial
stdout does not end in a line parseable as JSON). -/
def jloadsFaithfulFor (jl : String → Option Json) : ExecOutcome → Prop
  | .allPass =>
      jl (lastNonemptyLine (scriptStdout .allPass)) =
        some (Json.obj [("passed", Json.bool true), ("detail", Json.null)])
  | .assertFail m =>
      jl (lastNonemptyLine (scriptStdout (.assertFail m))) =
        some (Json.obj [("passed", Json.bool false), ("detail", Json.str m)])
  | .raisedExc m =>
      jl (lastNonemptyLine (scriptStdout (.raisedExc m))) =
        some (Json.obj
          [("passed", Json.bool false),
           ("detail", Json.str ("EXCEPTION: " ++ m))])
  | .topLevelCrash o => jl (lastNonemptyLine o) = none

/-- Field access on a JSON object (`r[k]` / `r.get(k)` on the report
dicts); `none` for non-objects or missing keys. -/
def Json.getField : Json → String → Option Json
  | .obj kvs, k => getKey kvs k
  | _, _ => none

/-! ## gpu_monitor.py -/

/-- One telemetry sample as built by `GPUMonitor._sample_once`
(gpu_monitor.py lines 65-131); the per-GPU breakdown is kept as a list
of (power, utilization) pairs. -/
structure Sample where
  ts : ℚ
  per_gpu : List (ℚ × ℚ)
  total_power_w : ℚ
  avg_util_pct : ℚ
  max_power_w : ℚ
  max_util_pct : ℚ

/-- One append step of the sampling loop `GPUMonitor._run`
(lines 137-145): with `record_samples` the sample is appended
unconditionally; otherwise the buffer is appended and then truncated to
its last 10000 entries (`self._samples = self._samples[-10000:]`)
whenever it exceeds 10000. -/
def monitorAppendStep (record_samples : Bool) (samples : List Sample)
    (s : Sample) : List Sample :=
  if record_samples then samples ++ [s]
  else
    let samples2 := samples ++ [s]
    if samples2.length > 10000 then
      samples2.drop (samples2.length - 10000)
    else samples2

/-- The buffer after `n` ticks of the sampling loop starting from an
empty buffer, with `record_samples = True` and each tick appending the
sample `s`. -/
def monitorBufferTrue (s : Sample) (n : ℕ) : List Sample :=
  (fun buf => monitorAppendStep true buf s)^[n] []

/-- The summary returned by `GPUMonitor.stop_and_summary`
(lines 156-187): aggregates over the collected samples, all zeros with
`samples = 0` when none were collected. -/
structure TelemetrySummary where
  samples : ℕ
  duration_s : ℚ
  avg_power_w : ℚ
  max_power_w : ℚ
  avg_util_pct : ℚ
  max_util_pct : ℚ
  sample_interval_s : ℚ

/-- The duration computed at line 160 of `stop_and_summary`:
`(self._end_ts or time.time()) - (self._start_ts or time.time())`, with
`none` modelling an unset (`None`) timestamp and `now` the value of
`time.time()` at that moment. -/
def stopSummaryDuration (startTs endTs : Option ℚ) (now : ℚ) : ℚ :=
  endTs.getD now - startTs.getD now

/-- Embedding of `stop_and_summary` over the sample buffer, timestamps and current
time (lines 156-187). -/
def stop_and_summary (samples : List Sample) (startTs endTs : Option ℚ)
    (now sample_interval : ℚ) : TelemetrySummary :=
  let duration := stopSummaryDuration startTs endTs now
  let n := samples.length
  if n = 0 then
    { samples := 0, duration_s := duration, avg_power_w := 0
      max_power_w := 0, avg_util_pct := 0, max_util_pct := 0
      sample_interval_s := sample_interval }
  else
    let total_power := (samples.map (fun s => s.total_power_w)).sum
    { samples := n
      duration_s := duration
      avg_power_w := total_power / n
      max_power_w := (samples.map (fun s => s.max_power_w)).foldr max 0
      avg_util_pct := (samples.map (fun s => s.avg_util_pct)).sum / n
      max_util_pct := (samples.map (fun s => s.max_util_pct)).foldr max 0
      sample_interval_s := sample_interval }

/-- The summary as a JSON object, in the key order of the source's
return dict. -/
def summaryJson (m : TelemetrySummary) : Json :=
  Json.obj
    [("samples", Json.num m.samples),
     ("duration_s", Json.num m.duration_s),
     ("avg_power_w", Json.num m.avg_power_w),
     ("max_power_w", Json.num m.max_power_w),
     ("avg_util_pct", Json.num m.avg_util_pct),
     ("max_util_pct", Json.num m.max_util_pct),
     ("sample_interval_s", Json.num m.sample_interval_s)]

/-! ## ci_benchmark_http.py -/

/-- One benchmark task, as in the `MINI_HUMANEVAL` entries. -/
structure Task where
  id : String
  prompt : String
  signature : String
  tests : List String

/-- The first `MINI_HUMANEVAL` task (ci_benchmark_http.py lines 24-29). -/
def taskFactorial : Task :=
  { id := "factorial"
    prompt := "Implement a function factorial(n) that returns the factorial of a non-negative integer n.\n"
    signature := "def factorial(n):"
    tests := ["assert factorial(5) == 120", "assert factorial(0) == 1"] }

/-- The second `MINI_HUMANEVAL` task (lines 30-35). -/
def taskIsPalindrome : Task :=
  { id := "is_palindrome"
    prompt := "Implement is_palindrome(s) ignoring spaces and case.\n"
    signature := "def is_palindrome(s):"
    tests := ["assert is_palindrome(\x27radar\x27) is True",
              "assert is_palindrome(\x27hello\x27) is False"] }

/-- The third `MINI_HUMANEVAL` task (lines 36-41). -/
def taskSumOfList : Task :=
  { id := "sum_of_list"
    prompt := "Implement sum_of_list(lst) returns sum.\n"
    signature := "def sum_of_list(lst):"
    tests := ["assert sum_of_list([1,2,3]) == 6", "assert sum_of_list([]) == 0"] }

/-- The task list `MINI_HUMANEVAL` (ci_benchmark_http.py lines 23-42). -/
def MINI_HUMANEVAL : List Task :=
  [taskFactorial, taskIsPalindrome, taskSumOfList]

/-- A successful generation call for one task: `call_completion`'s
elapsed time and the text `extract_generated_text` yields from its
response. -/
structure GenOutcome where
  elapsed_s : ℚ
  text : String

/-- Per-task environment of the orchestrator loop body: the generation
call's outcome (`.error e` models a raised exception), the tuple
returned by `run_code_in_sandbox` for this task's code, and the summary
returned by `monitor.stop_and_summary()` (called on both the error path,
line 121, and the normal path, line 128). -/
structure TaskEnv where
  gen : Except String GenOutcome
  sandboxResult : SandboxResult
  summary : TelemetrySummary

/-- Value that `float("0.4")` would give for the getenv default at
lines 132 and 152. -/
def defaultEmissionFactor : ℚ := 0.4

/-- Whether the module namespace of ci_benchmark_http.py binds the name
`os`. Its import block (lines 12-21) imports `argparse`, `json`,
`time`, `Path`, typing names, `requests`, `hashlib`, `GPUMonitor` and
the sandbox helpers — but never `os`. -/
def ciImportsOs : Bool := false

/-- Evaluation of `float(os.getenv("ENERGY_MIX_KG_CO2_KWH", "0.4"))`
(lines 132 and 152): resolving the name `os` raises `NameError` because
ci_benchmark_http.py never imports `os` (`ciImportsOs = false`); were
the name bound, the expression would yield the parsed environment
variable `envVal`, defaulting to `0.4`. -/
def energyMixLookup (envVal : Option ℚ) : Except String ℚ :=
  if ciImportsOs then Except.ok (envVal.getD defaultEmissionFactor)
  else Except.error "NameError: name \x27os\x27 is not defined"

/-- Processing of one task by the loop body (lines 114-146): on a
failed generation call, the error entry `task_id, error, monitor`
is appended (line 122) and the loop continues; on a successful
generation the sandbox result and summary are read and `kwh` computed
(lines 124-131), after which line 132 evaluates
`float(os.getenv(...))` — which raises `NameError`, aborting the whole
run before `kg_co2`, the accumulation at line 134, or the result entry
of lines 135-146 exist. -/
def processTask (envVal : Option ℚ) (task : Task) (env : TaskEnv) :
    Except String Json :=
  match env.gen with
  | .error e =>
      Except.ok (Json.obj
        [("task_id", Json.str task.id),
         ("error", Json.str ("completion_error:" ++ e)),
         ("monitor", summaryJson env.summary)])
  | .ok g =>
      let duration := env.summary.duration_s
      let avg_power := env.summary.avg_power_w
      let kwh := avg_power * duration / 1000
      match energyMixLookup envVal with
      | .error err => Except.error err
      | .ok energy_mix =>
          let kg_co2 := kwh * energy_mix
          Except.ok (Json.obj
            [("task_id", Json.str task.id),
             ("completion_elapsed_s", Json.num g.elapsed_s),
             ("generated_text", Json.str g.text),
             ("exec_passed", Json.bool env.sandboxResult.passed),
             ("exec_stdout", Json.str env.sandboxResult.stdout),
             ("exec_stderr", Json.str env.sandboxResult.stderr),
             ("exec_meta", env.sandboxResult.meta),
             ("gpu_monitor", summaryJson env.summary),
             ("kwh", Json.num kwh),
             ("kg_co2", Json.num kg_co2)])

/-- Embedding of `ensure_sandbox_image_built` (sandbox_runner.py lines 40-60):
raises (`Except.error`) when the docker CLI is missing or the Dockerfile
is absent while a build is needed; otherwise reports whether the image
is (now) present. -/
def ensure_sandbox_image_built (dockerAvailable imageExists : Bool)
    (buildIfMissing dockerfileExists : Bool) (buildOk : Except String Unit) :
    Except String Bool :=
  if dockerAvailable = false then
    Except.error "docker CLI not found in PATH"
  else if imageExists then Except.ok true
  else if buildIfMissing = false then Except.ok false
  else if dockerfileExists = false then
    Except.error "Sandbox Dockerfile not found"
  else
    match buildOk with
    | .error e => Except.error e
    | .ok _ => Except.ok true

/-- Environment of one orchestrator `run` call. -/
structure RunEnv where
  dockerAvailable : Bool
  imageExists : Bool
  dockerfileExists : Bool
  buildOk : Except String Unit
  /-- The parsed value the `ENERGY_MIX_KG_CO2_KWH` environment variable
  would supply, `none` when unset. -/
  energyMixVar : Option ℚ
  /-- Value of `time.strftime(..., time.gmtime())` at report time. -/
  timestamp : String
  /-- Result of `build_face_detector_block(detector_manifest)`. -/
  faceBlock : Json
  /-- The per-task external outcomes, one per input task. -/
  taskEnvs : List TaskEnv

/-- The orchestrator task loop (lines 113-146), threading the `results`
list and the `total_kwh` accumulator in input order: each error-path
iteration appends its entry and continues; each generation-success
iteration raises `NameError` at line 132 (via `energyMixLookup`),
aborting the loop — the entry append and `total_kwh += kwh` (line 134)
are reached only in the counterfactual world where `os` is imported. -/
def runLoop (envVal : Option ℚ) :
    List (Task × TaskEnv) → List Json → ℚ → Except String (List Json × ℚ)
  | [], results, total => Except.ok (results, total)
  | p :: rest, results, total =>
      match processTask envVal p.1 p.2 with
      | .error err => Except.error err
      | .ok entry =>
          let total2 :=
            match p.2.gen with
            | .error _ => total
            | .ok _ =>
                total + p.2.summary.avg_power_w * p.2.summary.duration_s / 1000
          runLoop envVal rest (results ++ [entry]) total2

/-- Embedding of `run` (ci_benchmark_http.py lines 109-158): ensure the
sandbox image (aborting the whole run if that raises), run the task
loop (which raises `NameError` at line 132 on the first
generation-success task), then evaluate line 152's
`float(os.getenv(...))` (which raises `NameError` even when every task
took the error path) and build the report dict of lines 147-155.
`Except.error` models the run aborting with no report written; since
`ciImportsOs = false`, the `.ok` branch is unreachable for the source
as it stands. -/
def run (serverUrl : String) (model : Option String) (tasks : List Task)
    (env : RunEnv) : Except String Json :=
  match ensure_sandbox_image_built env.dockerAvailable env.imageExists true
      env.dockerfileExists env.buildOk with
  | .error e => Except.error e
  | .ok _ =>
      match runLoop env.energyMixVar (tasks.zip env.taskEnvs) [] 0 with
      | .error e => Except.error e
      | .ok rt =>
          match energyMixLookup env.energyMixVar with
          | .error e => Except.error e
          | .ok energy_mix =>
              Except.ok (Json.obj
                [("server_url", Json.str serverUrl),
                 ("model",
                   match model with
                   | none => Json.null
                   | some m => Json.str m),
                 ("timestamp", Json.str env.timestamp),
                 ("total_kwh", Json.num rt.2),
                 ("total_kg_co2", Json.num (rt.2 * energy_mix)),
                 ("face_detector", env.faceBlock),
                 ("tasks", Json.arr rt.1)])

/-- Externally observable actions of one `run` call, used to state that
an aborted run neither executes tasks nor writes a report. -/
inductive RunEvent where
  /-- A `run_code_in_sandbox` invocation for the task with this id. -/
  | execSandbox (taskId : String) : RunEvent
  /-- The report write `out.write_text(...)` (line 157). -/
  | writeReport : RunEvent
deriving DecidableEq

/-- Sandbox executions performed by the task loop, in order: an
error-path task runs no sandbox; a generation-success task runs the
sandbox (line 127) and then crashes at line 132, ending the loop. -/
def runLoopEvents (envVal : Option ℚ) : List (Task × TaskEnv) → List RunEvent
  | [] => []
  | p :: rest =>
      match p.2.gen with
      | .error _ => runLoopEvents envVal rest
      | .ok _ =>
          RunEvent.execSandbox p.1.id ::
            (match energyMixLookup envVal with
             | .error _ => []
             | .ok _ => runLoopEvents envVal rest)

/-- The action trace of `run`: nothing when
`ensure_sandbox_image_built` raises at line 110; otherwise the loop's
sandbox executions, followed by the report write only if neither the
loop nor line 152 raised. -/
def runEvents (tasks : List Task) (env : RunEnv) : List RunEvent :=
  match ensure_sandbox_image_built env.dockerAvailable env.imageExists true
      env.dockerfileExists env.buildOk with
  | .error _ => []
  | .ok _ =>
      runLoopEvents env.energyMixVar (tasks.zip env.taskEnvs)
      ++ (match runLoop env.energyMixVar (tasks.zip env.taskEnvs) [] 0 with
          | .error _ => []
          | .ok _ =>
              match energyMixLookup env.energyMixVar with
              | .error _ => []
              | .ok _ => [RunEvent.writeReport])

/-! ## Concrete environments for counterexamples and witnesses -/

/-- Model of `json.loads` restricted to the line printed by a harness run whose
assertion failed with an empty message: `json.loads` parses
`\x7b"passed": false, "detail": ""\x7d` to the corresponding object. -/
def jlAssertEmpty : String → Option Json := fun s =>
  if s = dumpsResult false (some "") then
    some (Json.obj [("passed", Json.bool false), ("detail", Json.str "")])
  else none

/-- A sandbox call whose harness ran `assert factorial(5) == 120` against
a wrong `factorial` and caught `AssertionError` with an empty message. -/
def envAssertEmpty : SandboxEnv :=
  { dockerAvailable := true
    imageBuild := Except.ok ()
    popen := Except.ok ()
    communicate := some (scriptStdout (ExecOutcome.assertFail ""), "")
    jloads := jlAssertEmpty }

/-- Model of `json.loads` restricted to the line printed when the harness caught
`ZeroDivisionError` (message `division by zero`) from the tests. -/
def jlExcBoom : String → Option Json := fun s =>
  if s = dumpsResult false (some ("EXCEPTION: " ++ "division by zero")) then
    some (Json.obj
      [("passed", Json.bool false),
       ("detail", Json.str ("EXCEPTION: " ++ "division by zero"))])
  else none

/-- A sandbox call whose tests raised a non-assertion exception. -/
def envExcBoom : SandboxEnv :=
  { dockerAvailable := true
    imageBuild := Except.ok ()
    popen := Except.ok ()
    communicate :=
      some (scriptStdout (ExecOutcome.raisedExc "division by zero"), "")
    jloads := jlExcBoom }

/-- Model of `json.loads` restricted to the stdout line `\x7b\x7d`: a valid JSON
object that has no `passed` key. -/
def jlEmptyObj : String → Option Json := fun s =>
  if s = "\x7b\x7d" then some (Json.obj []) else none

/-- A sandbox call whose container printed the bare object `\x7b\x7d`
as its only stdout line. -/
def envEmptyObj : SandboxEnv :=
  { dockerAvailable := true
    imageBuild := Except.ok ()
    popen := Except.ok ()
    communicate := some ("\x7b\x7d", "boom")
    jloads := jlEmptyObj }

/-- A sandbox call whose container printed free-form text that
`json.loads` rejects. -/
def envGarbage : SandboxEnv :=
  { dockerAvailable := true
    imageBuild := Except.ok ()
    popen := Except.ok ()
    communicate := some ("Killed", "oom")
    jloads := fun _ => none }

/-- Model of `json.loads` restricted to the line
`\x7b"passed": true\x7d`: a valid JSON object whose `passed` value is
`true`. -/
def jlFakePass : String → Option Json := fun s =>
  if s = "\x7b\"passed\": true\x7d" then
    some (Json.obj [("passed", Json.bool true)])
  else none

/-- A sandbox call whose candidate code printed the forged line
`\x7b"passed": true\x7d` and then raised at top level: the harness's
own result line is never printed, so the forged line is the trailing
stdout line. -/
def envFakePass : SandboxEnv :=
  { dockerAvailable := true
    imageBuild := Except.ok ()
    popen := Except.ok ()
    communicate :=
      some (scriptStdout
        (ExecOutcome.topLevelCrash "\x7b\"passed\": true\x7d"),
        "Traceback (most recent call last): NameError")
    jloads := jlFakePass }

/-- A sandbox call whose container did not finish before the
`timeout + 2` deadline: `communicate` raised `TimeoutExpired`. -/
def envTimeout : SandboxEnv :=
  { dockerAvailable := true
    imageBuild := Except.ok ()
    popen := Except.ok ()
    communicate := none
    jloads := fun _ => none }

/-- A concrete telemetry summary (5 samples over 2 s at 100 W average). -/
def summaryA : TelemetrySummary :=
  { samples := 5, duration_s := 2, avg_power_w := 100, max_power_w := 120
    avg_util_pct := 50, max_util_pct := 80, sample_interval_s := 1/2 }

/-- A successful generation outcome for the `factorial` task. -/
def genFactorial : GenOutcome :=
  { elapsed_s := 3/2, text := "def factorial(n):\n    return 1\n" }

/-- A task environment whose generation succeeded and whose sandbox run
failed an assertion with an empty message. -/
def taskEnvGenOk : TaskEnv :=
  { gen := Except.ok genFactorial
    sandboxResult := run_code_in_sandbox envAssertEmpty
    summary := summaryA }

/-- A task environment whose generation call raised. -/
def taskEnvGenErr : TaskEnv :=
  { gen := Except.error "HTTPConnectionPool: connection refused"
    sandboxResult :=
      { passed := false, stdout := "", stderr := "", meta := Json.null }
    summary := summaryA }

/-- A task environment whose generation succeeded and whose sandbox run
passed. -/
def taskEnvGenPass : TaskEnv :=
  { gen := Except.ok
      { elapsed_s := 1, text := "def sum_of_list(lst):\n    return sum(lst)\n" }
    sandboxResult :=
      { passed := true, stdout := dumpsResult true none, stderr := ""
        meta := Json.null }
    summary := summaryA }

/-- Per-task environments for the three `MINI_HUMANEVAL` tasks: the
first generation succeeds and its sandbox run fails an assertion, the
second generation raises, the third succeeds and passes. -/
def taskEnvsA : List TaskEnv :=
  [taskEnvGenOk, taskEnvGenErr, taskEnvGenPass]

/-- Per-task environments where every generation call raised: no task
ever reaches line 132, so the run survives to the report construction
and crashes there, at line 152. -/
def taskEnvsAllErr : List TaskEnv :=
  [taskEnvGenErr, taskEnvGenErr, taskEnvGenErr]

/-- Discriminator: does a parsed value exist and is it a JSON object
with a `passed` key. -/
def hasPassedKey : Option Json → Bool
  | some (Json.obj kvs) => (getKey kvs "passed").isSome
  | _ => false

/-- Discriminator: is the parsed value a JSON object. -/
def isJsonObjOpt : Option Json → Bool
  | some (Json.obj _) => true
  | _ => false

/-- A benchmark run environment: docker present, image already built,
no detector manifest, `ENERGY_MIX_KG_CO2_KWH` unset. -/
def runEnvA : RunEnv :=
  { dockerAvailable := true
    imageExists := true
    dockerfileExists := true
    buildOk := Except.ok ()
    energyMixVar := none
    timestamp := "2026-01-01T00:00:00Z"
    faceBlock := Json.obj []
    taskEnvs := taskEnvsA }

/-- The run environment of `runEnvA` but with every generation call
failing. -/
def runEnvAllErr : RunEnv :=
  { dockerAvailable := true
    imageExists := true
    dockerfileExists := true
    buildOk := Except.ok ()
    energyMixVar := none
    timestamp := "2026-01-01T00:00:00Z"
    faceBlock := Json.obj []
    taskEnvs := taskEnvsAllErr }

/-- A run environment on a host whose PATH has no docker CLI. -/
def runEnvNoDocker : RunEnv :=
  { dockerAvailable := false
    imageExists := false
    dockerfileExists := true
    buildOk := Except.ok ()
    energyMixVar := none
    timestamp := "2026-01-01T00:00:00Z"
    faceBlock := Json.obj []
    taskEnvs := taskEnvsA }

/-- An arbitrary concrete telemetry sample. -/
def sampleA : Sample :=
  { ts := 1000, per_gpu := [(100, 50)], total_power_w := 100
    avg_util_pct := 50, max_power_w := 100, max_util_pct := 50 }

/-! ## Claim theorems -/

/-- C4 counterexample: a concrete timed-out execution on which the
claim's termination conjunct fails. The code takes the `proc.kill()`
branch, but that SIGKILLs only the local docker CLI client (the
`Popen` child); the sandboxed process tree inside the container is
parented by the docker daemon and no `docker kill`/`docker stop` is
issued, so it is not forcibly terminated. -/
theorem C4_counterexample :
    run_code_in_sandbox envTimeout =
      { passed := false, stdout := "", stderr := ""
        meta := Json.str "timeout" }
    ∧ killsDockerClient envTimeout = true
    ∧ timeoutTerminates SandboxProc.containerWorkload = false :=
  ⟨rfl, rfl, rfl⟩

/-- C4 amended: for every execution that does not complete within
`timeout` seconds, `run_code_in_sandbox` waits at most the hard
deadline `timeout + 2` passed to `proc.communicate` (grace of 2
seconds), forcibly kills the local docker CLI client process — but not
the container's process tree, which nothing in the code terminates —
and returns
`passed = false, stdout = "", stderr = "", failure_detail = "timeout"`. -/
theorem C4_timeout_result (env : SandboxEnv) (timeout : ℚ)
    (hdocker : env.dockerAvailable = true)
    (himg : env.imageBuild = Except.ok ())
    (hpopen : env.popen = Except.ok ())
    (hto : env.communicate = none) :
    run_code_in_sandbox env =
      { passed := false, stdout := "", stderr := ""
        meta := Json.str "timeout" }
    ∧ killsDockerClient env = true
    ∧ timeoutTerminates SandboxProc.dockerClient = true
    ∧ timeoutTerminates SandboxProc.containerWorkload = false
    ∧ communicateDeadline timeout ≤ timeout + 2 := by
  refine ⟨?_, ?_, rfl, rfl, le_refl _⟩
  · simp [run_code_in_sandbox, hdocker, himg, hpopen, hto]
  · simp [killsDockerClient, hdocker, himg, hpopen, hto]

/-- C4 amended witness, at the orchestrator's `timeout = 8`. -/
theorem C4_timeout_result_witness :
    run_code_in_sandbox envTimeout =
      { passed := false, stdout := "", stderr := ""
        meta := Json.str "timeout" }
    ∧ killsDockerClient envTimeout = true
    ∧ timeoutTerminates SandboxProc.dockerClient = true
    ∧ timeoutTerminates SandboxProc.containerWorkload = false
    ∧ communicateDeadline 8 ≤ 8 + 2 :=
  C4_timeout_result envTimeout 8 rfl rfl rfl rfl

/-- C10: the timeout path of `run_code_in_sandbox` returns empty
stdout and stderr (any partial output is discarded), in contrast to
the invalid-output path, which returns the raw stdout and stderr. -/
theorem C10_timeout_discards_output (env env2 : SandboxEnv) (o e : String)
    (hdocker : env.dockerAvailable = true)
    (himg : env.imageBuild = Except.ok ())
    (hpopen : env.popen = Except.ok ())
    (hto : env.communicate = none)
    (hdocker2 : env2.dockerAvailable = true)
    (himg2 : env2.imageBuild = Except.ok ())
    (hpopen2 : env2.popen = Except.ok ())
    (hcomm2 : env2.communicate = some (o, e))
    (hjl2 : env2.jloads (lastNonemptyLine o) = none) :
    (run_code_in_sandbox env).stdout = ""
    ∧ (run_code_in_sandbox env).stderr = ""
    ∧ (run_code_in_sandbox env).meta = Json.str "timeout"
    ∧ (run_code_in_sandbox env2).stdout = o
    ∧ (run_code_in_sandbox env2).stderr = e
    ∧ (run_code_in_sandbox env2).meta = Json.str "invalid_output" := by
  refine ⟨?_, ?_, ?_, ?_, ?_, ?_⟩ <;>
    simp [run_code_in_sandbox, parseSandboxOutput, hdocker, himg, hpopen,
      hto, hdocker2, himg2, hpopen2, hcomm2, hjl2]

/-- C10 witness: a timed-out run next to a run that printed `Killed`. -/
theorem C10_timeout_discards_output_witness :
    (run_code_in_sandbox envTimeout).stdout = ""
    ∧ (run_code_in_sandbox envTimeout).stderr = ""
    ∧ (run_code_in_sandbox envTimeout).meta = Json.str "timeout"
    ∧ (run_code_in_sandbox envGarbage).stdout = "Killed"
    ∧ (run_code_in_sandbox envGarbage).stderr = "oom"
    ∧ (run_code_in_sandbox envGarbage).meta = Json.str "invalid_output" :=
  C10_timeout_discards_output envTimeout envGarbage "Killed" "oom"
    rfl rfl rfl rfl rfl rfl rfl rfl rfl

/-- C3 counterexample, two failing inputs. First: the harness catches a
bare failing assertion (`AssertionError` with empty message, e.g.
`assert factorial(5) == 120` against a wrong factorial) and reports
`detail = str(e) = ""` — `passed = false` holds but the failure detail
is the empty string, not non-empty. Second: candidate code that prints
a forged `\x7b"passed": true\x7d` line and then raises at top level —
the harness result line is never printed, the forged line is the
trailing stdout line, it parses, and the run is returned as
`passed = true`, so even `passed = false` fails. -/
theorem C3_counterexample :
    ((run_code_in_sandbox envAssertEmpty).passed = false
      ∧ (run_code_in_sandbox envAssertEmpty).meta = Json.str "")
    ∧ (run_code_in_sandbox envFakePass).passed = true :=
  ⟨⟨rfl, rfl⟩, rfl⟩

/-- C3 amended: for a harness run that fails an assertion, raises an
exception in the tests, or crashes at top level (with stdout whose last
line is not parseable JSON — the carve-out forced by the second
counterexample input, where a forged parseable trailing line is taken
as the authoritative result), `run_code_in_sandbox` returns
`passed = false` and a non-null failure detail; the detail may however
be empty (when an assertion fails with an empty message — the first
counterexample input). -/
theorem C3_failed_run_detail (env : SandboxEnv) (outcome : ExecOutcome)
    (errS : String)
    (hne : outcome ≠ ExecOutcome.allPass)
    (hdocker : env.dockerAvailable = true)
    (himg : env.imageBuild = Except.ok ())
    (hpopen : env.popen = Except.ok ())
    (hcomm : env.communicate = some (scriptStdout outcome, errS))
    (hj : jloadsFaithfulFor env.jloads outcome) :
    (run_code_in_sandbox env).passed = false
    ∧ (run_code_in_sandbox env).meta ≠ Json.null := by
  cases outcome with
  | allPass => exact absurd rfl hne
  | assertFail m =>
      simp only [jloadsFaithfulFor] at hj
      constructor <;>
        simp [run_code_in_sandbox, parseSandboxOutput, hdocker, himg,
          hpopen, hcomm, hj, getKey, jsonTruthy]
  | raisedExc m =>
      simp only [jloadsFaithfulFor] at hj
      constructor <;>
        simp [run_code_in_sandbox, parseSandboxOutput, hdocker, himg,
          hpopen, hcomm, hj, getKey, jsonTruthy]
  | topLevelCrash o =>
      simp only [jloadsFaithfulFor] at hj
      constructor <;>
        simp [run_code_in_sandbox, parseSandboxOutput, hdocker, himg,
          hpopen, hcomm, hj, scriptStdout]

/-- C3 amended witness: tests raised `ZeroDivisionError`. -/
theorem C3_failed_run_detail_witness :
    (run_code_in_sandbox envExcBoom).passed = false
    ∧ (run_code_in_sandbox envExcBoom).meta ≠ Json.null :=
  C3_failed_run_detail envExcBoom
    (ExecOutcome.raisedExc "division by zero") ""
    (fun h => ExecOutcome.noConfusion h) rfl rfl rfl rfl rfl

/-- C5 counterexample: the container's trailing stdout line is the JSON
object `\x7b\x7d`, which parses but has no `passed` key — within the
claim's premise — yet `run_code_in_sandbox` returns `detail = None`
(from `parsed.get("detail", None)`), not `"invalid_output"`. -/
theorem C5_counterexample :
    run_code_in_sandbox envEmptyObj =
      { passed := false, stdout := "\x7b\x7d", stderr := "boom"
        meta := Json.null }
    ∧ (run_code_in_sandbox envEmptyObj).meta ≠ Json.str "invalid_output" :=
  ⟨rfl, fun h => Json.noConfusion h⟩

/-- C5 amended: whenever the trailing non-empty stdout line does not
parse to a JSON object carrying a `passed` key, the result has
`passed = false` with the raw stdout and stderr preserved; the detail is
`"invalid_output"` exactly when the line is not valid JSON or not an
object (a parsed object merely lacking `passed` instead yields the
object's own `detail` value, `None` if absent). -/
theorem C5_unparsable_never_success (env : SandboxEnv) (o e : String)
    (pr : Option Json)
    (hdocker : env.dockerAvailable = true)
    (himg : env.imageBuild = Except.ok ())
    (hpopen : env.popen = Except.ok ())
    (hcomm : env.communicate = some (o, e))
    (hpr : env.jloads (lastNonemptyLine o) = pr)
    (hnopass : hasPassedKey pr = false) :
    (run_code_in_sandbox env).passed = false
    ∧ (run_code_in_sandbox env).stdout = o
    ∧ (run_code_in_sandbox env).stderr = e
    ∧ (isJsonObjOpt pr = false →
        (run_code_in_sandbox env).meta = Json.str "invalid_output") := by
  have hrun : run_code_in_sandbox env = parseSandboxOutput env.jloads o e := by
    simp [run_code_in_sandbox, hdocker, himg, hpopen, hcomm]
  rw [hrun]
  cases pr with
  | none =>
      simp [parseSandboxOutput, hpr]
  | some j =>
      cases j with
      | obj kvs =>
          have hget : getKey kvs "passed" = none := by
            simp [hasPassedKey, Option.isSome_iff_exists] at hnopass
            cases hg : getKey kvs "passed" with
            | none => rfl
            | some v => exact absurd hg (by simp [hnopass])
          refine ⟨?_, ?_, ?_, ?_⟩ <;>
            simp [parseSandboxOutput, hpr, hget, jsonTruthy, isJsonObjOpt]
      | null => simp [parseSandboxOutput, hpr, isJsonObjOpt]
      | bool b => simp [parseSandboxOutput, hpr, isJsonObjOpt]
      | num q => simp [parseSandboxOutput, hpr, isJsonObjOpt]
      | str s => simp [parseSandboxOutput, hpr, isJsonObjOpt]
      | arr xs => simp [parseSandboxOutput, hpr, isJsonObjOpt]

/-- C5 amended witness: free-form stdout `Killed` that `json.loads`
rejects. -/
theorem C5_unparsable_never_success_witness :
    (run_code_in_sandbox envGarbage).passed = false
    ∧ (run_code_in_sandbox envGarbage).stdout = "Killed"
    ∧ (run_code_in_sandbox envGarbage).stderr = "oom"
    ∧ (isJsonObjOpt none = false →
        (run_code_in_sandbox envGarbage).meta = Json.str "invalid_output") :=
  C5_unparsable_never_success envGarbage "Killed" "oom" none
    rfl rfl rfl rfl rfl rfl

/-- Each tick with `record_samples = True` grows the buffer by one:
after `n` ticks from an empty buffer it holds `n` samples. -/
theorem monitorBufferTrue_length (s : Sample) (n : ℕ) :
    (monitorBufferTrue s n).length = n := by
  induction n with
  | zero => rfl
  | succ k ih =>
      unfold monitorBufferTrue at ih ⊢
      rw [Function.iterate_succ_apply']
      have hstep :
          monitorAppendStep true ((fun buf => monitorAppendStep true buf s)^[k] []) s =
            ((fun buf => monitorAppendStep true buf s)^[k] []) ++ [s] := by
        simp [monitorAppendStep]
      show (monitorAppendStep true
        ((fun buf => monitorAppendStep true buf s)^[k] []) s).length = k + 1
      rw [hstep, List.length_append, ih]
      rfl

/-- C9 counterexample: with constructor argument `record_samples=True`
(the truncation at gpu_monitor.py lines 143-145 sits only on the
`else` branch), 10001 sampling ticks leave 10001 samples in the buffer,
violating the claimed 10,000 bound for every instance. -/
theorem C9_counterexample :
    10000 < (monitorBufferTrue sampleA 10001).length := by
  rw [monitorBufferTrue_length]
  norm_num

/-- C9 amended: with `record_samples=False` (the orchestrator's
configuration, line 116 of ci_benchmark_http.py), every append step of
the sampling loop preserves the 10,000 bound, and it evicts oldest
first: the new buffer is the suffix of `samples ++ [s]` that keeps its
last (at most) 10,000 entries. With `record_samples=True` the buffer is
unbounded. -/
theorem C9_bound_without_recording (samples : List Sample) (s : Sample)
    (h : samples.length ≤ 10000) :
    (monitorAppendStep false samples s).length ≤ 10000
    ∧ monitorAppendStep false samples s =
        (samples ++ [s]).drop ((samples ++ [s]).length - 10000) := by
  constructor
  · simp only [monitorAppendStep, Bool.false_eq_true, if_false]
    split_ifs with hc
    · simp only [List.length_drop]
      omega
    · simp only [List.length_append, List.length_singleton] at hc ⊢
      omega
  · simp only [monitorAppendStep, Bool.false_eq_true, if_false]
    split_ifs with hc
    · rfl
    · have h0 : (samples ++ [s]).length - 10000 = 0 := by
        simp only [not_lt] at hc
        omega
      rw [h0, List.drop_zero]

/-- C9 amended witness: appending to an empty buffer. -/
theorem C9_bound_without_recording_witness :
    (monitorAppendStep false [] sampleA).length ≤ 10000
    ∧ monitorAppendStep false [] sampleA =
        (([] : List Sample) ++ [sampleA]).drop
          ((([] : List Sample) ++ [sampleA]).length - 10000) :=
  C9_bound_without_recording [] sampleA (by simp)

/-- C8 counterexample: the claim's "sampler is started before the
generation call begins" refers to the `monitor.start()` call, but the
timestamp that enters `duration_s` is `_start_ts`, written
asynchronously by the sampler thread at its first scheduling
(gpu_monitor.py line 134). On a schedule where generation begins at
`t = 10`, execution ends at `t = 12`, and the thread first runs only
at `t = 11`, line 160 yields `duration_s = 12 - 11 = 1`, strictly below
the 2-second generation+execution window; with the thread not scheduled
at all before stop, both timestamps are unset and the duration is `0`.
The code enforces no ordering between the thread's `_start_ts` write
and the generation call, so these schedules are admissible. -/
theorem C8_counterexample :
    stopSummaryDuration (some 11) (some 12) 12 < 12 - 10
    ∧ stopSummaryDuration none none 12 = 0 := by
  constructor <;> norm_num [stopSummaryDuration]

/-- C8 amended: whenever the sampler thread has recorded `_start_ts` no
later than generation start, and the stop side (`_end_ts` if set,
otherwise the `time.time()` fallback of line 160) is no earlier than
execution completion, the summary's `duration_s` — computed at
gpu_monitor.py line 160 as `(end_ts or now) - (start_ts or now)` — is
at least the wall-clock generation+execution window, on either exit
path (the summary is obtained at ci_benchmark_http.py lines 121 and
128 alike). The scheduling premise is what `monitor.start()` preceding
`call_completion` intends but does not enforce, since the thread writes
`_start_ts` asynchronously. -/
theorem C8_duration_covers_window (env : TaskEnv) (startTs : ℚ)
    (endTs : Option ℚ) (now tGenStart tExecEnd : ℚ)
    (hdur : env.summary.duration_s =
      stopSummaryDuration (some startTs) endTs now)
    (hstart : startTs ≤ tGenStart)
    (hwin : tGenStart ≤ tExecEnd)
    (hnow : tExecEnd ≤ now)
    (hend : ∀ x, endTs = some x → tExecEnd ≤ x) :
    tExecEnd - tGenStart ≤ env.summary.duration_s := by
  rw [hdur]
  unfold stopSummaryDuration
  cases endTs with
  | none => simp only [Option.getD_none, Option.getD_some]; linarith
  | some x =>
      have hx := hend x rfl
      simp only [Option.getD_some]
      linarith

/-- C8 amended witness: a task whose sampler thread recorded
`_start_ts = 10` and `_end_ts = 12` around a generation+execution
window from `10.5` to `11.5`. -/
theorem C8_duration_covers_window_witness :
    (23 : ℚ)/2 - 21/2 ≤ taskEnvGenOk.summary.duration_s :=
  C8_duration_covers_window taskEnvGenOk 10 (some 12) 12 (21/2) (23/2)
    (by norm_num [taskEnvGenOk, summaryA, stopSummaryDuration])
    (by norm_num) (by norm_num) (by norm_num)
    (fun x hx => by cases hx; norm_num)

/-- C6: if the docker CLI is unreachable when a benchmark run begins,
`ensure_sandbox_image_built` raises at line 110 of ci_benchmark_http.py
before the task loop: `run` aborts with no sandbox execution and no
report write in its action trace. -/
theorem C6_no_docker_aborts (serverUrl : String) (model : Option String)
    (tasks : List Task) (env : RunEnv)
    (hdocker : env.dockerAvailable = false) :
    run serverUrl model tasks env =
      Except.error "docker CLI not found in PATH"
    ∧ runEvents tasks env = [] := by
  constructor <;> simp [run, runEvents, ensure_sandbox_image_built, hdocker]

/-- C6 witness: the standard invocation on a docker-less host. -/
theorem C6_no_docker_aborts_witness :
    run "http://localhost:8000" none MINI_HUMANEVAL runEnvNoDocker =
      Except.error "docker CLI not found in PATH"
    ∧ runEvents MINI_HUMANEVAL runEnvNoDocker = [] :=
  C6_no_docker_aborts "http://localhost:8000" none MINI_HUMANEVAL
    runEnvNoDocker rfl

/-- C1 (code bug): ci_benchmark_http.py never imports `os`, so the
`float(os.getenv(...))` at line 132 raises `NameError` on the first
generation-success task, and the one at line 152 raises even when every
generation failed: the report dict of lines 147-155 is never built and
never written. Evaluated at a concrete full run (docker present, image
built, three tasks): `run` aborts with the `NameError` and its action
trace ends after the first sandbox execution, with no report write.
For the record, the dict literal the code would build also lacks the
claimed `duration_s` and `summary` keys. -/
theorem C1_report_never_built :
    run "http://localhost:8000" none MINI_HUMANEVAL runEnvA =
      Except.error "NameError: name \x27os\x27 is not defined"
    ∧ runEvents MINI_HUMANEVAL runEnvA =
        [RunEvent.execSandbox "factorial"] :=
  ⟨rfl, rfl⟩

/-- C2 (code bug): the orchestrator never emits the final report. With
a generation-success task present, `run` crashes with `NameError` at
line 132 before that task entry exists; with every generation
failing, the error entries of line 122 are appended but `run` still
crashes at line 152 while building the report. In both concrete runs
below the action trace contains no report write. -/
theorem C2_no_report_enumerates_tasks :
    run "http://localhost:8000" none MINI_HUMANEVAL runEnvA =
      Except.error "NameError: name \x27os\x27 is not defined"
    ∧ run "http://localhost:8000" none MINI_HUMANEVAL runEnvAllErr =
        Except.error "NameError: name \x27os\x27 is not defined"
    ∧ RunEvent.writeReport ∉ runEvents MINI_HUMANEVAL runEnvA
    ∧ RunEvent.writeReport ∉ runEvents MINI_HUMANEVAL runEnvAllErr := by
  refine ⟨rfl, rfl, ?_, ?_⟩ <;> decide

/-- C7 (code bug): a task that reaches metric computation gets as far
as `kwh = avg_power * duration / 1000` (line 131), but line 132 then
raises `NameError` (`os` is never imported), so `kg_co2`, the
`total_kwh` accumulation of line 134, and the report totals are never
computed — with or without the `ENERGY_MIX_KG_CO2_KWH` environment
variable set. The intended default factor string `"0.4"` parses to
`2/5`. -/
theorem C7_metrics_never_computed :
    processTask none taskFactorial taskEnvGenOk =
      Except.error "NameError: name \x27os\x27 is not defined"
    ∧ energyMixLookup (some (2/5)) =
        Except.error "NameError: name \x27os\x27 is not defined"
    ∧ defaultEmissionFactor = 2/5 := by
  refine ⟨rfl, rfl, ?_⟩
  norm_num [defaultEmissionFactor]

end LibreIA
